import Mathlib

/-!
Verification of the splinepy differential-geometry query layer.

This file shallowly embeds, over exact rational arithmetic:

* the Bernstein (Bezier) tensor-product basis with derivatives, following the
  Cox-de Boor / Bernstein recursion documented in `splinepy/bspline.py`;
* the Field Derivative Mapper (gradient / Hessian / Laplacian / divergence in
  physical space) — the mapper source is not in the repository snapshot, so it
  is modelled from the spec (section 4.3): pseudo-inverse Jacobian,
  second-order chain rule with curvature correction, dedicated reduced
  formulas for Laplacian and divergence, flagged combined entry points and
  convenience accessors;
* the Proximity Solver contract (section 4.4) and its batch/worker model
  (section 5);
* the knot insertion/removal validation wrappers of `splinepy/bspline.py`;
* the central-difference stencils used by `tests/helpme/test_mapper.py`.

Theorems at the end settle the frozen claims about these components.
-/

namespace Splinepy

/-! ### Bernstein basis and Bezier evaluation -/

/-- Bernstein basis polynomial of degree `p`, index `i` (zero outside
`0 ≤ i ≤ p` since the binomial coefficient vanishes).  This is the
Cox-de Boor basis of `bspline.py` specialised to the clamped single-span
knot vector that a Bezier spline uses. -/
def bernstein (p i : ℕ) (u : ℚ) : ℚ :=
  (p.choose i : ℚ) * u ^ i * (1 - u) ^ (p - i)

/-- Modelled from the spec: `k`-th derivative of the Bernstein basis, via the
standard derivative recursion `D B(i,p) = p * (B(i-1,p-1) - B(i,p-1))`
(the basis-table component of section 4.1 evaluates requested derivative
orders of the local basis). -/
def bernsteinDeriv : ℕ → ℕ → ℕ → ℚ → ℚ
  | 0, p, i, u => bernstein p i u
  | k + 1, p, i, u =>
      (p : ℚ) *
        ((if i = 0 then 0 else bernsteinDeriv k (p - 1) (i - 1) u) -
          bernsteinDeriv k (p - 1) i u)

/-- Unit derivative-order vector in 2 parametric dimensions. -/
def e2 (a : Fin 2) (d : Fin 2) : ℕ := if a = d then 1 else 0

/-- Unit derivative-order vector in 3 parametric dimensions. -/
def e3 (a : Fin 3) (d : Fin 3) : ℕ := if a = d then 1 else 0

/-- Tensor-product basis (2D), derivative orders `(du, dv)`, flattened support
index `s` with the first parametric dimension running fastest. -/
def basis2D (pu pv du dv : ℕ) (s : ℕ) (u v : ℚ) : ℚ :=
  bernsteinDeriv du pu (s % (pu + 1)) u * bernsteinDeriv dv pv (s / (pu + 1)) v

/-- Tensor-product basis (3D), flattened support index, first dimension
fastest. -/
def basis3D (pu pv pw du dv dw : ℕ) (s : ℕ) (u v w : ℚ) : ℚ :=
  bernsteinDeriv du pu (s % (pu + 1)) u *
    bernsteinDeriv dv pv ((s / (pu + 1)) % (pv + 1)) v *
    bernsteinDeriv dw pw (s / ((pu + 1) * (pv + 1))) w

/-- Bezier curve evaluation (1 parametric dimension) of the `d`-th derivative:
sum of basis derivatives times control points. -/
def bezierEval1D (p : ℕ) (cps : ℕ → Fin 1 → ℚ) (d : ℕ) (u : ℚ) :
    Fin 1 → ℚ :=
  fun c => ∑ s ∈ Finset.range (p + 1), bernsteinDeriv d p s u * cps s c

/-- Bezier surface evaluation (2 parametric dimensions, physical dimension
`dim`), derivative orders `(du, dv)`. -/
def bezierEval2D (pu pv : ℕ) {dim : ℕ} (cps : ℕ → Fin dim → ℚ) (du dv : ℕ)
    (u v : ℚ) : Fin dim → ℚ :=
  fun c =>
    ∑ s ∈ Finset.range ((pu + 1) * (pv + 1)), basis2D pu pv du dv s u v * cps s c

/-- Bezier volume evaluation (3 parametric dimensions). -/
def bezierEval3D (pu pv pw : ℕ) {dim : ℕ} (cps : ℕ → Fin dim → ℚ)
    (du dv dw : ℕ) (u v w : ℚ) : Fin dim → ℚ :=
  fun c =>
    ∑ s ∈ Finset.range ((pu + 1) * (pv + 1) * (pw + 1)),
      basis3D pu pv pw du dv dw s u v w * cps s c

/-! ### Field Derivative Mapper (modelled from the spec, section 4.3) -/

/-- Per-query evaluation data handed to the mapper: parametric basis values
and derivatives of the field spline over its active support, plus the
geometry map's Jacobian (`jac i j = ∂S_i/∂u_j`, physical × parametric, so the
normal-equations pseudo-inverse of the spec typechecks) and second-derivative
tensor (parametric × parametric × physical), plus the global support
indices. -/
structure MapperData (para phys nsupp : ℕ) where
  bd0 : Fin nsupp → ℚ
  bd1 : Fin nsupp → Fin para → ℚ
  bd2 : Fin nsupp → Fin para → Fin para → ℚ
  jac : Matrix (Fin phys) (Fin para) ℚ
  geo2 : Fin para → Fin para → Fin phys → ℚ
  supp : Fin nsupp → ℕ

/-- Explicit (adjugate-based) inverse of a square rational matrix; equals the
usual inverse whenever the determinant is nonzero. -/
def qInverse {n : ℕ} (M : Matrix (Fin n) (Fin n) ℚ) :
    Matrix (Fin n) (Fin n) ℚ :=
  (M.det)⁻¹ • M.adjugate

/-- Modelled from the spec: `pseudo_inverse_jacobian`, the normal-equations
pseudo-inverse `(JᵀJ)⁻¹Jᵀ` (which coincides with the exact inverse in the
square nondegenerate case, see `C3_gradient_pseudoinverse`). -/
def pseudoInverseJacobian {para phys : ℕ}
    (J : Matrix (Fin phys) (Fin para) ℚ) : Matrix (Fin para) (Fin phys) ℚ :=
  qInverse (J.transpose * J) * J.transpose

/-- Modelled from the spec: correction tensors `Γ_k` built from the geometry
second-derivative tensor and the pseudo-inverse Jacobian
(`Γ k a c = Σ_m J⁺(k,m)·∂²S_m/∂u_a∂u_c`). -/
def gammaCorrection {para phys nsupp : ℕ} (D : MapperData para phys nsupp) :
    Fin para → Fin para → Fin para → ℚ :=
  fun k a c => ∑ m, pseudoInverseJacobian D.jac k m * D.geo2 a c m

/-- Curvature-corrected parametric Hessian of basis function `s`:
`H_param − Σ_k ∂basis/∂u_k · Γ_k`. -/
def correctedHessParam {para phys nsupp : ℕ} (D : MapperData para phys nsupp)
    (s : Fin nsupp) : Fin para → Fin para → ℚ :=
  fun a c => D.bd2 s a c - ∑ k, D.bd1 s k * gammaCorrection D k a c

/-- Physical-space gradient of each raw basis function:
`d(basis)/d(phys) = d(basis)/d(param) · J⁺`. -/
def basisGradient {para phys nsupp : ℕ} (D : MapperData para phys nsupp) :
    Fin nsupp → Fin phys → ℚ :=
  fun s m => ∑ a, D.bd1 s a * pseudoInverseJacobian D.jac a m

/-- Physical-space Hessian of each raw basis function:
`H_phys = J⁺ᵀ · (H_param − Σ_k ∂basis/∂u_k Γ_k) · J⁺`. -/
def basisHessian {para phys nsupp : ℕ} (D : MapperData para phys nsupp) :
    Fin nsupp → Fin phys → Fin phys → ℚ :=
  fun s m n =>
    ∑ a, ∑ c,
      pseudoInverseJacobian D.jac a m * correctedHessParam D s a c *
        pseudoInverseJacobian D.jac c n

/-- Dedicated reduced Laplacian formula: the corrected parametric Hessian is
contracted directly with the metric `Q a c = Σ_m J⁺(a,m)·J⁺(c,m)`; the
physical Hessian is never materialised.  Independent of `basisHessian` by
construction. -/
def basisLaplacian {para phys nsupp : ℕ} (D : MapperData para phys nsupp) :
    Fin nsupp → ℚ :=
  fun s =>
    ∑ a, ∑ c,
      correctedHessParam D s a c *
        (∑ m, pseudoInverseJacobian D.jac a m * pseudoInverseJacobian D.jac c m)

/-- Field gradient: basis gradients contracted with the field control-point
coefficients over the active support. -/
def fieldGradient {para phys nsupp fd : ℕ} (D : MapperData para phys nsupp)
    (coeff : Fin nsupp → Fin fd → ℚ) : Fin fd → Fin phys → ℚ :=
  fun i m => ∑ s, coeff s i * basisGradient D s m

/-- Field Hessian: basis Hessians contracted with the field coefficients. -/
def fieldHessian {para phys nsupp fd : ℕ} (D : MapperData para phys nsupp)
    (coeff : Fin nsupp → Fin fd → ℚ) : Fin fd → Fin phys → Fin phys → ℚ :=
  fun i m n => ∑ s, coeff s i * basisHessian D s m n

/-- Field Laplacian via the dedicated reduced formula. -/
def fieldLaplacian {para phys nsupp fd : ℕ} (D : MapperData para phys nsupp)
    (coeff : Fin nsupp → Fin fd → ℚ) : Fin fd → ℚ :=
  fun i => ∑ s, coeff s i * basisLaplacian D s

/-- Modelled from the spec: dedicated divergence formula, a trace contraction
applied directly to the field's parametric derivatives and the pseudo-inverse
Jacobian (never via the full gradient tensor).  Only defined for
`field_dim = para_dim` (and a square geometry, where the trace makes sense). -/
def fieldDivergence {n nsupp : ℕ} (D : MapperData n n nsupp)
    (coeff : Fin nsupp → Fin n → ℚ) : ℚ :=
  ∑ a, ∑ i,
    pseudoInverseJacobian D.jac a i * (∑ s, coeff s i * D.bd1 s a)

/-- Output of `basis_function_derivatives`: only requested entries are
populated (sparse-result contract), support always attached. -/
structure BasisDerivOutput (para phys nsupp : ℕ) where
  gradient : Option (Fin nsupp → Fin phys → ℚ)
  hessian : Option (Fin nsupp → Fin phys → Fin phys → ℚ)
  laplacian : Option (Fin nsupp → ℚ)
  support : Fin nsupp → ℕ

/-- Modelled from the spec: combined entry point for raw basis-function
derivatives with request flags.  When the Hessian is computed anyway the
Laplacian is taken as its trace; when requested alone it uses the dedicated
reduced formula. -/
def basis_function_derivatives {para phys nsupp : ℕ}
    (D : MapperData para phys nsupp) (g h l : Bool) :
    BasisDerivOutput para phys nsupp where
  gradient := if g then some (basisGradient D) else none
  hessian := if h then some (basisHessian D) else none
  laplacian :=
    if l then
      some (if h then fun s => ∑ m, basisHessian D s m m else basisLaplacian D)
    else none
  support := D.supp

/-- Dedicated accessor: basis gradients with support. -/
def basis_gradient_and_support {para phys nsupp : ℕ}
    (D : MapperData para phys nsupp) :
    (Fin nsupp → Fin phys → ℚ) × (Fin nsupp → ℕ) :=
  (basisGradient D, D.supp)

/-- Dedicated accessor: basis Hessians with support. -/
def basis_hessian_and_support {para phys nsupp : ℕ}
    (D : MapperData para phys nsupp) :
    (Fin nsupp → Fin phys → Fin phys → ℚ) × (Fin nsupp → ℕ) :=
  (basisHessian D, D.supp)

/-- Dedicated accessor: basis Laplacians (reduced formula) with support. -/
def basis_laplacian_and_support {para phys nsupp : ℕ}
    (D : MapperData para phys nsupp) :
    (Fin nsupp → ℚ) × (Fin nsupp → ℕ) :=
  (basisLaplacian D, D.supp)

/-- Error message raised on a divergence request with mismatched
dimensionality (matched by `tests/helpme/test_mapper.py`). -/
def divergenceErrorMsg : String :=
  "Divergence can only be performed on vector fields with para_dim = dim"

/-- Output of `field_derivatives`: only requested entries populated. -/
structure FieldDerivOutput (n fd nsupp : ℕ) where
  gradient : Option (Fin fd → Fin n → ℚ)
  divergence : Option ℚ
  hessian : Option (Fin fd → Fin n → Fin n → ℚ)
  laplacian : Option (Fin fd → ℚ)
  basis_function_values : Option (Fin nsupp → Fin n → ℚ)
  support : Fin nsupp → ℕ

/-- Modelled from the spec: combined entry point for field derivatives with
request flags `(gradient, divergence, hessian, laplacian,
basis_function_values)`.  A divergence request with
`field_dim ≠ para_dim` is InvalidArgument: the whole batch call aborts
before any computation.  Divergence and Laplacian are computed from the
gradient/Hessian when those are requested anyway, and by their dedicated
formulas otherwise. -/
def field_derivatives {n nsupp fd : ℕ} (D : MapperData n n nsupp)
    (coeff : Fin nsupp → Fin fd → ℚ) (g dv h l bfv : Bool) :
    Except String (FieldDerivOutput n fd nsupp) :=
  if dv = true ∧ fd ≠ n then .error divergenceErrorMsg
  else
    .ok
      { gradient := if g then some (fieldGradient D coeff) else none
        divergence :=
          if dv then
            if hq : fd = n then
              some
                (if g then
                  ∑ i, fieldGradient D coeff (Fin.cast hq.symm i) i
                else
                  fieldDivergence D (fun s i => coeff s (Fin.cast hq.symm i)))
            else none
          else none
        hessian := if h then some (fieldHessian D coeff) else none
        laplacian :=
          if l then
            some
              (if h then fun i => ∑ m, fieldHessian D coeff i m m
              else fieldLaplacian D coeff)
          else none
        basis_function_values := if bfv then some (basisGradient D) else none
        support := D.supp }

/-- Convenience accessor `gradient()`. -/
def gradient {n nsupp fd : ℕ} (D : MapperData n n nsupp)
    (coeff : Fin nsupp → Fin fd → ℚ) : Fin fd → Fin n → ℚ :=
  fieldGradient D coeff

/-- Convenience accessor `hessian()`. -/
def hessian {n nsupp fd : ℕ} (D : MapperData n n nsupp)
    (coeff : Fin nsupp → Fin fd → ℚ) : Fin fd → Fin n → Fin n → ℚ :=
  fieldHessian D coeff

/-- Convenience accessor `laplacian()` (dedicated reduced formula). -/
def laplacian {n nsupp fd : ℕ} (D : MapperData n n nsupp)
    (coeff : Fin nsupp → Fin fd → ℚ) : Fin fd → ℚ :=
  fieldLaplacian D coeff

/-- Convenience accessor `divergence()` (dedicated trace formula), failing
with InvalidArgument when `field_dim ≠ para_dim`. -/
def divergence {n nsupp fd : ℕ} (D : MapperData n n nsupp)
    (coeff : Fin nsupp → Fin fd → ℚ) : Except String ℚ :=
  if hq : fd = n then
    .ok (fieldDivergence D (fun s i => coeff s (Fin.cast hq.symm i)))
  else .error divergenceErrorMsg

/-! ### Assembling mapper data from concrete Bezier splines -/

/-- Mapper evaluation data for a 1D geometry Bezier (degree `gp`, control
points `gcps`) and a field Bezier of degree `fp`, at parametric query `u`. -/
def mapperData1D (gp : ℕ) (gcps : ℕ → Fin 1 → ℚ) (fp : ℕ) (u : ℚ) :
    MapperData 1 1 (fp + 1) where
  bd0 := fun s => bernsteinDeriv 0 fp s.val u
  bd1 := fun s _ => bernsteinDeriv 1 fp s.val u
  bd2 := fun s _ _ => bernsteinDeriv 2 fp s.val u
  jac := Matrix.of fun i _ => bezierEval1D gp gcps 1 u i
  geo2 := fun _ _ m => bezierEval1D gp gcps 2 u m
  supp := fun s => s.val

/-- Mapper evaluation data for a 2D geometry Bezier and a 2D field Bezier at
query `(u, v)`; derivative-order vectors are unit vectors `e2`. -/
def mapperData2D (gpu gpv : ℕ) (gcps : ℕ → Fin 2 → ℚ) (fpu fpv : ℕ)
    (u v : ℚ) : MapperData 2 2 ((fpu + 1) * (fpv + 1)) where
  bd0 := fun s => basis2D fpu fpv 0 0 s.val u v
  bd1 := fun s a => basis2D fpu fpv (e2 a 0) (e2 a 1) s.val u v
  bd2 := fun s a c =>
    basis2D fpu fpv (e2 a 0 + e2 c 0) (e2 a 1 + e2 c 1) s.val u v
  jac := Matrix.of fun i j => bezierEval2D gpu gpv gcps (e2 j 0) (e2 j 1) u v i
  geo2 := fun a c m =>
    bezierEval2D gpu gpv gcps (e2 a 0 + e2 c 0) (e2 a 1 + e2 c 1) u v m
  supp := fun s => s.val

/-- Mapper evaluation data for a 3D geometry Bezier and a 3D field Bezier at
query `(u, v, w)`. -/
def mapperData3D (gpu gpv gpw : ℕ) (gcps : ℕ → Fin 3 → ℚ) (fpu fpv fpw : ℕ)
    (u v w : ℚ) : MapperData 3 3 ((fpu + 1) * (fpv + 1) * (fpw + 1)) where
  bd0 := fun s => basis3D fpu fpv fpw 0 0 0 s.val u v w
  bd1 := fun s a => basis3D fpu fpv fpw (e3 a 0) (e3 a 1) (e3 a 2) s.val u v w
  bd2 := fun s a c =>
    basis3D fpu fpv fpw (e3 a 0 + e3 c 0) (e3 a 1 + e3 c 1) (e3 a 2 + e3 c 2)
      s.val u v w
  jac := Matrix.of fun i j =>
    bezierEval3D gpu gpv gpw gcps (e3 j 0) (e3 j 1) (e3 j 2) u v w i
  geo2 := fun a c m =>
    bezierEval3D gpu gpv gpw gcps (e3 a 0 + e3 c 0) (e3 a 1 + e3 c 1)
      (e3 a 2 + e3 c 2) u v w m
  supp := fun s => s.val

/-- Control points of the `rotating2D` fixture: the unit-square corners
rotated by the matrix `[[co, -si], [si, co]]`, first dimension fastest. -/
def rotationCps (co si : ℚ) : ℕ → Fin 2 → ℚ :=
  fun s c =>
    if s = 0 then 0
    else if s = 1 then (if c = 0 then co else si)
    else if s = 2 then (if c = 0 then -si else co)
    else if c = 0 then co - si else si + co

/-- Rotation matrix `[[co, -si], [si, co]]` of the test fixture. -/
def rotMat (co si : ℚ) : Matrix (Fin 2) (Fin 2) ℚ :=
  Matrix.of ![![co, -si], ![si, co]]

/-- Mapper data of the `rotating2D` geometry (degrees `[1, 1]`) with the
degree-`[2, 1]` scalar field of the test, at query `(u, v)`. -/
def rotatingData (co si u v : ℚ) : MapperData 2 2 6 :=
  mapperData2D 1 1 (rotationCps co si) 2 1 u v

/-- Control points of the `scaling3D` fixture: the 8 corners of the
`2 x 0.3 x 1.5` box, listed exactly as in the test (first dimension
fastest). -/
def scalingCps : ℕ → Fin 3 → ℚ :=
  fun s c =>
    if c = 0 then (if s % 2 = 1 then 2 else 0)
    else if c = 1 then (if (s / 2) % 2 = 1 then 3 / 10 else 0)
    else if s / 4 = 1 then 3 / 2 else 0

/-- Mapper data of the trilinear box geometry with the degree-`[2, 1, 1]`
scalar solution field (`solution_field_mono3D`), at query `(u, v, w)`. -/
def scalingData (u v w : ℚ) : MapperData 3 3 12 :=
  mapperData3D 1 1 1 scalingCps 2 1 1 u v w

/-- Constant coefficient vector of `solution_field_mono3D`: all control
points equal `0.2`. -/
def monoCoeff : Fin 12 → Fin 1 → ℚ := fun _ _ => 1 / 5

/-- Control points of the 1D identity geometry `S(u) = u`. -/
def idCps : ℕ → Fin 1 → ℚ := fun s _ => if s = 0 then 0 else 1

/-- Control points of the degenerate (constant-zero) 1D geometry. -/
def zeroCps : ℕ → Fin 1 → ℚ := fun _ _ => 0

/-! ### Proximity Solver (modelled from the spec, sections 4.4 and 5) -/

/-- Parametric domain `[0, 1]^p` of the test fixtures. -/
def inDomain {p : ℕ} (u : Fin p → ℚ) : Prop := ∀ d, 0 ≤ u d ∧ u d ≤ 1

/-- Squared Euclidean distance between physical points. -/
def sqDist {d : ℕ} (x y : Fin d → ℚ) : ℚ := ∑ i, (x i - y i) ^ 2

/-- Modelled from the spec: the Proximity Solver contract — for a physical
query `q`, the returned parametric coordinate lies in the domain and
minimises the distance of the geometry image to `q` (`proximities` returns a
"per-query parametric coordinate minimizing the distance", section 4.4). -/
def IsProximityResult {p d : ℕ} (E : (Fin p → ℚ) → Fin d → ℚ)
    (q : Fin d → ℚ) (uu : Fin p → ℚ) : Prop :=
  inDomain uu ∧ ∀ v, inDomain v → sqDist (E uu) q ≤ sqDist (E v) q

/-- Split a list into contiguous chunks of `k + 1` elements (last chunk may
be shorter). -/
def chunkList {α : Type} (k : ℕ) : List α → List (List α)
  | [] => []
  | x :: xs => (x :: xs.take k) :: chunkList k (xs.drop k)
  termination_by xs => xs.length
  decreasing_by
    simp only [List.length_drop, List.length_cons]
    omega

/-- Modelled from the spec: batch proximity execution model (section 5) — the
query batch is partitioned into contiguous per-worker chunks, each query is
solved independently by the per-query solver, and the chunk results are
reassembled in input order. -/
def proximities {α β : Type} (solve : α → β) (nthreads : ℕ)
    (qs : List α) : List β :=
  ((chunkList (qs.length / max nthreads 1) qs).map (List.map solve)).flatten

/-! ### Knot insertion/removal validation (`splinepy/bspline.py`) -/

/-- Observable state of a B-spline for the knot-mutation wrappers: knot
vectors, control points, and the cached derived data (`self._data`). -/
structure BSplineState where
  knot_vectors : List (List ℚ)
  control_points : List (List ℚ)
  cache : ℕ

/-- Parametric dimension: one knot vector per parametric dimension. -/
def para_dim (s : BSplineState) : ℕ := s.knot_vectors.length

/-- Freshly reset cached data (`spline._default_data()`). -/
def defaultData : ℕ := 0

/-- Default tolerance (`settings.TOLERANCE`). -/
def TOLERANCE : ℚ := 1 / 10 ^ 11

/-- The `knots` argument of the wrappers: a scalar float or a list. -/
inductive KnotArg where
  | float (x : ℚ)
  | list (xs : List ℚ)

/-- The `isinstance(knots, float)` conversion: a scalar becomes a one-element
list. -/
def KnotArg.toList : KnotArg → List ℚ
  | .float x => [x]
  | .list xs => xs

/-- `BSplineBase.insert_knots`: validates the parametric dimension and the
knot range, then invokes the core insertion (`core`) and resets the cached
data.  On any validation failure a ValueError is raised and the state is
returned unchanged. -/
def insert_knots (core : BSplineState → ℕ → List ℚ → BSplineState)
    (s : BSplineState) (parametric_dimension : ℕ) (knots : KnotArg) :
    Except String Unit × BSplineState :=
  if parametric_dimension ≥ para_dim s then
    (.error ("Invalid parametric dimension to remove knots."), s)
  else
    let ks := knots.toList
    let kv := s.knot_vectors.getD parametric_dimension []
    match ks.max?, kv.max? with
    | none, _ => (.error ("max() arg is an empty sequence"), s)
    | _, none => (.error ("max() arg is an empty sequence"), s)
    | some ksmax, some kvmax =>
      if ksmax > kvmax then
        (.error ("One of the query knots not in valid knot range. (Too big)"), s)
      else
        match ks.min?, kv.min? with
        | none, _ => (.error ("min() arg is an empty sequence"), s)
        | _, none => (.error ("min() arg is an empty sequence"), s)
        | some ksmin, some kvmin =>
          if ksmin < kvmin then
            (.error
              ("One of the query knots not in valid knot range. (Too small)"),
              s)
          else
            (.ok (),
              { core s parametric_dimension ks with cache := defaultData })

/-- `BSplineBase.remove_knots`: same validation as insertion; the core
removal returns per-knot success flags and the cached data is reset only if
any knot was actually removed. -/
def remove_knots
    (core : BSplineState → ℕ → List ℚ → ℚ → List Bool × BSplineState)
    (s : BSplineState) (parametric_dimension : ℕ) (knots : KnotArg)
    (tolerance : Option ℚ) : Except String Unit × BSplineState :=
  if parametric_dimension ≥ para_dim s then
    (.error ("Invalid parametric dimension to remove knots."), s)
  else
    let ks := knots.toList
    let kv := s.knot_vectors.getD parametric_dimension []
    match ks.max?, kv.max? with
    | none, _ => (.error ("max() arg is an empty sequence"), s)
    | _, none => (.error ("max() arg is an empty sequence"), s)
    | some ksmax, some kvmax =>
      if ksmax > kvmax then
        (.error ("One of the query knots not in valid knot range. (Too big)"), s)
      else
        match ks.min?, kv.min? with
        | none, _ => (.error ("min() arg is an empty sequence"), s)
        | _, none => (.error ("min() arg is an empty sequence"), s)
        | some ksmin, some kvmin =>
          if ksmin < kvmin then
            (.error
              ("One of the query knots not in valid knot range. (Too small)"),
              s)
          else
            let res :=
              core s parametric_dimension ks (tolerance.getD TOLERANCE)
            (.ok (),
              if res.1.any id then { res.2 with cache := defaultData }
              else res.2)

/-! ### Central-difference stencils (`tests/helpme/test_mapper.py`) -/

/-- Second-difference stencil for the `(0,0)` Hessian entry, exactly as in
the test: `(f(x+2dx, y) + f(x-2dx, y) - 2 f(x, y)) / (4 dx²)`. -/
def fdHessian00 (f : ℚ → ℚ → ℚ) (x y dx : ℚ) : ℚ :=
  (f (x + 2 * dx) y + f (x - 2 * dx) y - 2 * f x y) / (4 * dx * dx)

/-- Second-difference stencil for the `(1,1)` Hessian entry. -/
def fdHessian11 (f : ℚ → ℚ → ℚ) (x y dx : ℚ) : ℚ :=
  (f x (y + 2 * dx) + f x (y - 2 * dx) - 2 * f x y) / (4 * dx * dx)

/-- Cross-difference stencil for the `(0,1)`/`(1,0)` Hessian entry. -/
def fdHessian01 (f : ℚ → ℚ → ℚ) (x y dx : ℚ) : ℚ :=
  (f (x + dx) (y + dx) - f (x - dx) (y + dx) - f (x + dx) (y - dx) +
      f (x - dx) (y - dx)) /
    (4 * dx * dx)

/-- One-dimensional second-difference stencil (the diagonal stencil of the
test specialised to one parametric dimension). -/
def fdHessian1D (f : ℚ → ℚ) (x dx : ℚ) : ℚ :=
  (f (x + 2 * dx) + f (x - 2 * dx) - 2 * f x) / (4 * dx * dx)

/-- A raw basis function of the degree-`[2, 1]` field, as a function of
physical coordinates, for the rotation geometry: physical points are pulled
back through the exact inverse `Rᵀ` of the rotation. -/
def basisPhys (co si : ℚ) (s : ℕ) : ℚ → ℚ → ℚ :=
  fun x y => basis2D 2 1 0 0 s (co * x + si * y) (-(si * x) + co * y)

/-! ## Theorems -/

/-! ### Unfolding lemmas for the basis recursion -/

theorem bernsteinDeriv_zero (p i : ℕ) (u : ℚ) :
    bernsteinDeriv 0 p i u = bernstein p i u := rfl

theorem bernsteinDeriv_one (p i : ℕ) (u : ℚ) :
    bernsteinDeriv 1 p i u =
      (p : ℚ) *
        ((if i = 0 then 0 else bernstein (p - 1) (i - 1) u) -
          bernstein (p - 1) i u) := rfl

theorem bernsteinDeriv_two (p i : ℕ) (u : ℚ) :
    bernsteinDeriv 2 p i u =
      (p : ℚ) *
        ((if i = 0 then 0 else bernsteinDeriv 1 (p - 1) (i - 1) u) -
          bernsteinDeriv 1 (p - 1) i u) := rfl

/-! ### Trace identities shared by the dual-formula claims -/

theorem basisLaplacian_eq_trace {para phys nsupp : ℕ}
    (D : MapperData para phys nsupp) (s : Fin nsupp) :
    basisLaplacian D s = ∑ m, basisHessian D s m m := by
  show (∑ a, ∑ c, correctedHessParam D s a c *
        ∑ m, pseudoInverseJacobian D.jac a m * pseudoInverseJacobian D.jac c m)
      = ∑ m, ∑ a, ∑ c, pseudoInverseJacobian D.jac a m *
          correctedHessParam D s a c * pseudoInverseJacobian D.jac c m
  calc
    (∑ a, ∑ c, correctedHessParam D s a c *
        ∑ m, pseudoInverseJacobian D.jac a m * pseudoInverseJacobian D.jac c m)
        = ∑ a, ∑ c, ∑ m, pseudoInverseJacobian D.jac a m *
            correctedHessParam D s a c * pseudoInverseJacobian D.jac c m := by
          refine Finset.sum_congr rfl fun a _ => ?_
          refine Finset.sum_congr rfl fun c _ => ?_
          rw [Finset.mul_sum]
          exact Finset.sum_congr rfl fun m _ => by ring
    _ = ∑ a, ∑ m, ∑ c, pseudoInverseJacobian D.jac a m *
            correctedHessParam D s a c * pseudoInverseJacobian D.jac c m :=
          Finset.sum_congr rfl fun a _ => Finset.sum_comm
    _ = ∑ m, ∑ a, ∑ c, pseudoInverseJacobian D.jac a m *
            correctedHessParam D s a c * pseudoInverseJacobian D.jac c m :=
          Finset.sum_comm

theorem fieldLaplacian_eq_trace {para phys nsupp fd : ℕ}
    (D : MapperData para phys nsupp) (coeff : Fin nsupp → Fin fd → ℚ)
    (i : Fin fd) :
    fieldLaplacian D coeff i = ∑ m, fieldHessian D coeff i m m := by
  show (∑ s, coeff s i * basisLaplacian D s)
      = ∑ m, ∑ s, coeff s i * basisHessian D s m m
  rw [Finset.sum_comm]
  exact Finset.sum_congr rfl fun s _ => by
    rw [basisLaplacian_eq_trace, Finset.mul_sum]

theorem fieldDivergence_eq_trace {n nsupp : ℕ} (D : MapperData n n nsupp)
    (coeff : Fin nsupp → Fin n → ℚ) :
    fieldDivergence D coeff = ∑ i, fieldGradient D coeff i i := by
  show (∑ a, ∑ i, pseudoInverseJacobian D.jac a i * ∑ s, coeff s i * D.bd1 s a)
      = ∑ i, ∑ s, coeff s i * ∑ a, D.bd1 s a * pseudoInverseJacobian D.jac a i
  calc
    (∑ a, ∑ i, pseudoInverseJacobian D.jac a i * ∑ s, coeff s i * D.bd1 s a)
        = ∑ a, ∑ i, ∑ s, coeff s i *
            (D.bd1 s a * pseudoInverseJacobian D.jac a i) := by
          refine Finset.sum_congr rfl fun a _ => ?_
          refine Finset.sum_congr rfl fun i _ => ?_
          rw [Finset.mul_sum]
          exact Finset.sum_congr rfl fun s _ => by ring
    _ = ∑ i, ∑ a, ∑ s, coeff s i *
            (D.bd1 s a * pseudoInverseJacobian D.jac a i) :=
          Finset.sum_comm
    _ = ∑ i, ∑ s, ∑ a, coeff s i *
            (D.bd1 s a * pseudoInverseJacobian D.jac a i) :=
          Finset.sum_congr rfl fun i _ => Finset.sum_comm
    _ = ∑ i, ∑ s, coeff s i *
            ∑ a, D.bd1 s a * pseudoInverseJacobian D.jac a i := by
          refine Finset.sum_congr rfl fun i _ => ?_
          refine Finset.sum_congr rfl fun s _ => ?_
          rw [Finset.mul_sum]

/-- Claim C2: for every geometry, field and query, the Laplacian computed by
the mapper's dedicated reduced formula equals the trace of the Hessian
computed by the mapper at the same query (exactly, hence within any
tolerance), at both the raw-basis and the field level; the two sides are
separate definitions (`basisLaplacian` / `fieldLaplacian` versus
`basisHessian` / `fieldHessian`), not one derived from the other. -/
theorem C2_laplacian_trace_hessian :
    ∀ (para phys nsupp fd : ℕ) (D : MapperData para phys nsupp)
      (coeff : Fin nsupp → Fin fd → ℚ) (s : Fin nsupp) (i : Fin fd),
      basisLaplacian D s = ∑ m, basisHessian D s m m ∧
      fieldLaplacian D coeff i = ∑ m, fieldHessian D coeff i m m :=
  fun _ _ _ _ D coeff s i =>
    ⟨basisLaplacian_eq_trace D s, fieldLaplacian_eq_trace D coeff i⟩

/-- Claim C5: for every field whose dimensionality equals the parametric
dimensionality and every query, the divergence computed by the mapper's
dedicated trace formula (contracting parametric derivatives with the
pseudo-inverse Jacobian directly) equals the trace of the full physical
gradient tensor, and the combined entry point returns exactly that value. -/
theorem C5_divergence_trace_gradient :
    ∀ (n nsupp : ℕ) (D : MapperData n n nsupp)
      (coeff : Fin nsupp → Fin n → ℚ),
      fieldDivergence D coeff = ∑ i, fieldGradient D coeff i i ∧
      field_derivatives D coeff false true false false false =
        .ok { gradient := none, divergence := some (fieldDivergence D coeff),
              hessian := none, laplacian := none,
              basis_function_values := none, support := D.supp } := by
  intro n nsupp D coeff
  refine ⟨fieldDivergence_eq_trace D coeff, ?_⟩
  simp [field_derivatives]

/-! ### Worker-partitioning model -/

theorem chunkList_map_flatten {α β : Type} (f : α → β) (k : ℕ) :
    ∀ xs : List α, ((chunkList k xs).map (List.map f)).flatten = xs.map f
  | [] => by simp [chunkList]
  | x :: xs => by
    rw [show chunkList k (x :: xs) = (x :: xs.take k) :: chunkList k (xs.drop k)
      from by simp [chunkList]]
    simp only [List.map_cons, List.flatten_cons]
    rw [chunkList_map_flatten f k (xs.drop k)]
    rw [← List.map_cons, ← List.map_append, List.cons_append,
      List.take_append_drop, List.map_cons]
  termination_by xs => xs.length
  decreasing_by
    simp only [List.length_drop, List.length_cons]
    omega

/-- Claim C8: batch proximity output equals the per-query map for every
worker count, so `proximities(q, workers = 1)` and
`proximities(q, workers = K)` agree elementwise, the output order mirrors the
input order, and lengths are preserved; per-query results do not depend on
the partitioning. -/
theorem C8_proximities_worker_determinism :
    ∀ {α β : Type} (solve : α → β) (nthreads : ℕ) (qs : List α),
      proximities solve nthreads qs = qs.map solve ∧
      proximities solve nthreads qs = proximities solve 1 qs ∧
      (proximities solve nthreads qs).length = qs.length := by
  intro α β solve K qs
  have h : ∀ n : ℕ, proximities solve n qs = qs.map solve := fun n =>
    chunkList_map_flatten solve (qs.length / max n 1) qs
  refine ⟨h K, (h K).trans (h 1).symm, ?_⟩
  rw [h K, List.length_map]

/-! ### Divergence dimension guard -/

/-- Claim C6: for every field whose dimensionality differs from the
parametric dimensionality, both the divergence accessor and the combined
entry point with the divergence flag fail with the InvalidArgument message
identifying the dimensionality requirement, aborting the whole batch call
with no computed output. -/
theorem C6_divergence_dim_mismatch :
    ∀ (n nsupp fd : ℕ) (D : MapperData n n nsupp)
      (coeff : Fin nsupp → Fin fd → ℚ) (g h l bfv : Bool),
      fd ≠ n →
      divergence D coeff = .error divergenceErrorMsg ∧
      field_derivatives D coeff g true h l bfv = .error divergenceErrorMsg := by
  intro n nsupp fd D coeff g h l bfv hne
  constructor
  · rw [divergence, dif_neg hne]
  · rw [field_derivatives, if_pos ⟨rfl, hne⟩]

/-- Witness for C6 at a concrete instance: the degree-`[2, 1]` scalar field
(`field_dim = 1`) over the 2-D rotation geometry. -/
theorem C6_divergence_dim_mismatch_witness :
    (1 : ℕ) ≠ 2 ∧
    divergence (rotatingData 1 0 0 0) (fun _ : Fin 6 => fun _ : Fin 1 => (1 : ℚ)) =
      .error divergenceErrorMsg ∧
    field_derivatives (rotatingData 1 0 0 0)
        (fun _ : Fin 6 => fun _ : Fin 1 => (1 : ℚ))
        false true false false false =
      .error divergenceErrorMsg := by
  refine ⟨by decide, ?_, ?_⟩
  · exact (C6_divergence_dim_mismatch 2 6 1 (rotatingData 1 0 0 0)
      (fun _ _ => 1) false false false false (by decide)).1
  · exact (C6_divergence_dim_mismatch 2 6 1 (rotatingData 1 0 0 0)
      (fun _ _ => 1) false false false false (by decide)).2

/-! ### Accessor / combined-entry-point agreement -/

/-- Claim C7: every single-output convenience accessor (`gradient`,
`hessian`, `laplacian`, `divergence`, and the basis-level
`basis_*_and_support` accessors) returns exactly the result of the combined
entry point with only that output flag set, including identical support
index sets; moreover the all-flags combined call (where Laplacian and
divergence are produced from the Hessian/gradient instead of the dedicated
formulas) still agrees with the accessors. -/
theorem C7_accessors_match_entry :
    (∀ (para phys nsupp : ℕ) (D : MapperData para phys nsupp),
      ((basis_function_derivatives D true false false).gradient =
          some (basis_gradient_and_support D).1 ∧
        (basis_function_derivatives D true false false).support =
          (basis_gradient_and_support D).2) ∧
      ((basis_function_derivatives D false true false).hessian =
          some (basis_hessian_and_support D).1 ∧
        (basis_function_derivatives D false true false).support =
          (basis_hessian_and_support D).2) ∧
      ((basis_function_derivatives D false false true).laplacian =
          some (basis_laplacian_and_support D).1 ∧
        (basis_function_derivatives D false false true).support =
          (basis_laplacian_and_support D).2) ∧
      (basis_function_derivatives D true true true).laplacian =
        some (basis_laplacian_and_support D).1) ∧
    (∀ (n nsupp fd : ℕ) (D : MapperData n n nsupp)
        (coeff : Fin nsupp → Fin fd → ℚ) (coeff2 : Fin nsupp → Fin n → ℚ),
      field_derivatives D coeff true false false false false =
        .ok { gradient := some (gradient D coeff), divergence := none,
              hessian := none, laplacian := none,
              basis_function_values := none, support := D.supp } ∧
      field_derivatives D coeff false false true false false =
        .ok { gradient := none, divergence := none,
              hessian := some (hessian D coeff), laplacian := none,
              basis_function_values := none, support := D.supp } ∧
      field_derivatives D coeff false false false true false =
        .ok { gradient := none, divergence := none, hessian := none,
              laplacian := some (laplacian D coeff),
              basis_function_values := none, support := D.supp } ∧
      field_derivatives D coeff2 false true false false false =
        .ok { gradient := none,
              divergence := some (fieldDivergence D coeff2),
              hessian := none, laplacian := none,
              basis_function_values := none, support := D.supp } ∧
      divergence D coeff2 = .ok (fieldDivergence D coeff2) ∧
      field_derivatives D coeff2 true true true true true =
        .ok { gradient := some (gradient D coeff2),
              divergence := some (fieldDivergence D coeff2),
              hessian := some (hessian D coeff2),
              laplacian := some (laplacian D coeff2),
              basis_function_values := some (basisGradient D),
              support := D.supp }) := by
  constructor
  · intro para phys nsupp D
    refine ⟨⟨rfl, rfl⟩, ⟨rfl, rfl⟩, ⟨rfl, rfl⟩, ?_⟩
    show some (fun s => ∑ m, basisHessian D s m m) = some (basisLaplacian D)
    exact congrArg some (funext fun s => (basisLaplacian_eq_trace D s).symm)
  · intro n nsupp fd D coeff coeff2
    have hdiv : (∑ i, fieldGradient D coeff2 i i) = fieldDivergence D coeff2 :=
      (fieldDivergence_eq_trace D coeff2).symm
    have hlap : (fun i => ∑ m, fieldHessian D coeff2 i m m) =
        laplacian D coeff2 :=
      funext fun i => (fieldLaplacian_eq_trace D coeff2 i).symm
    refine ⟨by simp [field_derivatives, gradient],
      by simp [field_derivatives, hessian],
      by simp [field_derivatives, laplacian],
      by simp [field_derivatives], by simp [divergence], ?_⟩
    simp [field_derivatives, gradient, hessian, hdiv, hlap]

/-! ### Knot insertion/removal validation -/

/-- Claim C10: for every B-spline and every `insert_knots` / `remove_knots`
call, an out-of-range parametric dimension or a query knot above the maximum
or below the minimum of that dimension's knot vector raises a ValueError
before the core mutation is invoked — for every possible core routine the
result is the error with the state (knot vectors, control points, cached
data) unchanged — and a scalar float knot argument behaves exactly like the
corresponding one-element list. -/
theorem C10_knot_validation :
    ∀ (core : BSplineState → ℕ → List ℚ → BSplineState)
      (rcore : BSplineState → ℕ → List ℚ → ℚ → List Bool × BSplineState)
      (s : BSplineState) (pd : ℕ) (knots : KnotArg) (tol : Option ℚ)
      (a b a2 b2 : ℚ) (x : ℚ),
      (pd ≥ para_dim s →
        insert_knots core s pd knots =
          (.error ("Invalid parametric dimension to remove knots."), s) ∧
        remove_knots rcore s pd knots tol =
          (.error ("Invalid parametric dimension to remove knots."), s)) ∧
      (pd < para_dim s →
        knots.toList.max? = some a →
        (s.knot_vectors.getD pd []).max? = some b →
        a > b →
        insert_knots core s pd knots =
          (.error ("One of the query knots not in valid knot range. (Too big)"),
            s) ∧
        remove_knots rcore s pd knots tol =
          (.error ("One of the query knots not in valid knot range. (Too big)"),
            s)) ∧
      (pd < para_dim s →
        knots.toList.max? = some a →
        (s.knot_vectors.getD pd []).max? = some b →
        a ≤ b →
        knots.toList.min? = some a2 →
        (s.knot_vectors.getD pd []).min? = some b2 →
        a2 < b2 →
        insert_knots core s pd knots =
          (.error
            ("One of the query knots not in valid knot range. (Too small)"),
            s) ∧
        remove_knots rcore s pd knots tol =
          (.error
            ("One of the query knots not in valid knot range. (Too small)"),
            s)) ∧
      (insert_knots core s pd (.float x) =
          insert_knots core s pd (.list [x]) ∧
        remove_knots rcore s pd (.float x) tol =
          remove_knots rcore s pd (.list [x]) tol) := by
  intro core rcore s pd knots tol a b a2 b2 x
  refine ⟨?_, ?_, ?_, ?_⟩
  · intro hpd
    constructor
    · rw [insert_knots, if_pos hpd]
    · rw [remove_knots, if_pos hpd]
  · intro hpd hmax hkvmax hgt
    constructor
    · rw [insert_knots, if_neg (not_le.mpr hpd)]
      simp only [hmax, hkvmax]
      rw [if_pos hgt]
    · rw [remove_knots, if_neg (not_le.mpr hpd)]
      simp only [hmax, hkvmax]
      rw [if_pos hgt]
  · intro hpd hmax hkvmax hle hmin hkvmin hlt
    constructor
    · rw [insert_knots, if_neg (not_le.mpr hpd)]
      simp only [hmax, hkvmax]
      rw [if_neg (not_lt.mpr hle)]
      simp only [hmin, hkvmin]
      rw [if_pos hlt]
    · rw [remove_knots, if_neg (not_le.mpr hpd)]
      simp only [hmax, hkvmax]
      rw [if_neg (not_lt.mpr hle)]
      simp only [hmin, hkvmin]
      rw [if_pos hlt]
  · constructor
    · rfl
    · rfl

/-- Witness for C10 at concrete states: an out-of-range parametric dimension
(`5` on a one-dimensional spline), a too-big query knot (`5 > 1`), and a
too-small query knot (`-1 < 0`). -/
theorem C10_knot_validation_witness :
    ((5 : ℕ) ≥ para_dim ⟨[[0, 0, 1, 1]], [[0], [1]], 0⟩ ∧
      insert_knots (fun t _ _ => t) ⟨[[0, 0, 1, 1]], [[0], [1]], 0⟩ 5
          (.list [1 / 2]) =
        (.error ("Invalid parametric dimension to remove knots."),
          ⟨[[0, 0, 1, 1]], [[0], [1]], 0⟩)) ∧
    ((0 : ℕ) < para_dim ⟨[[0, 0, 1, 1]], [[0], [1]], 0⟩ ∧
      insert_knots (fun t _ _ => t) ⟨[[0, 0, 1, 1]], [[0], [1]], 0⟩ 0
          (.list [5]) =
        (.error ("One of the query knots not in valid knot range. (Too big)"),
          ⟨[[0, 0, 1, 1]], [[0], [1]], 0⟩)) ∧
    remove_knots (fun t _ _ _ => ([], t)) ⟨[[0, 0, 1, 1]], [[0], [1]], 0⟩ 0
        (.list [-1]) none =
      (.error ("One of the query knots not in valid knot range. (Too small)"),
        ⟨[[0, 0, 1, 1]], [[0], [1]], 0⟩) := by
  have h5 : (5 : ℕ) ≥ para_dim ⟨[[0, 0, 1, 1]], [[0], [1]], 0⟩ := by
    simp [para_dim]
  have h0 : (0 : ℕ) < para_dim ⟨[[0, 0, 1, 1]], [[0], [1]], 0⟩ := by
    simp [para_dim]
  refine ⟨⟨h5, ?_⟩, ⟨h0, ?_⟩, ?_⟩
  · exact ((C10_knot_validation (fun t _ _ => t) (fun t _ _ _ => ([], t))
      ⟨[[0, 0, 1, 1]], [[0], [1]], 0⟩ 5 (.list [1 / 2]) none 0 0 0 0 0).1
        h5).1
  · exact ((C10_knot_validation (fun t _ _ => t) (fun t _ _ _ => ([], t))
      ⟨[[0, 0, 1, 1]], [[0], [1]], 0⟩ 0 (.list [5]) none 5 1 0 0 0).2.1 h0
        (by simp [KnotArg.toList]) (by norm_num [List.max?]) (by norm_num)).1
  · exact ((C10_knot_validation (fun t _ _ => t) (fun t _ _ _ => ([], t))
      ⟨[[0, 0, 1, 1]], [[0], [1]], 0⟩ 0 (.list [-1]) none (-1) 1 (-1) 0 0).2.2.1
        h0 (by simp [KnotArg.toList]) (by norm_num [List.max?]) (by norm_num)
        (by simp [KnotArg.toList]) (by norm_num [List.min?]) (by norm_num)).2

/-! ### Pseudo-inverse algebra and the rotation/scaling fixtures -/

theorem qInverse_mul {n : ℕ} (M : Matrix (Fin n) (Fin n) ℚ) (h : M.det ≠ 0) :
    qInverse M * M = 1 := by
  unfold qInverse
  rw [Matrix.smul_mul, Matrix.adjugate_mul, smul_smul,
    inv_mul_cancel₀ h, one_smul]

theorem rotJac (co si u v : ℚ) :
    (rotatingData co si u v).jac = rotMat co si := by
  ext i j
  fin_cases i <;> fin_cases j <;>
    simp [rotatingData, mapperData2D, rotMat, bezierEval2D, basis2D, e2,
      rotationCps, Finset.sum_range_succ, bernsteinDeriv_zero,
      bernsteinDeriv_one, bernstein] <;> ring

theorem rotJTJ (co si u v : ℚ) (h : co ^ 2 + si ^ 2 = 1) :
    (rotatingData co si u v).jac.transpose * (rotatingData co si u v).jac =
      1 := by
  rw [rotJac]
  ext i j
  fin_cases i <;> fin_cases j <;>
    simp [Matrix.mul_apply, Fin.sum_univ_two, Matrix.transpose_apply, rotMat,
      Matrix.one_apply, Matrix.of_apply, Matrix.cons_val_zero,
      Matrix.cons_val_one, Matrix.head_cons, Matrix.vecHead,
      Matrix.vecTail] <;> linarith [h]

theorem rotPinv (co si u v : ℚ) (h : co ^ 2 + si ^ 2 = 1) :
    pseudoInverseJacobian (rotatingData co si u v).jac =
      (rotMat co si).transpose := by
  rw [pseudoInverseJacobian, rotJTJ co si u v h, rotJac]
  rw [show qInverse (1 : Matrix (Fin 2) (Fin 2) ℚ) = 1 by
    simp [qInverse, Matrix.adjugate_one]]
  rw [one_mul]

theorem rotGeo2 (co si u v : ℚ) (a c : Fin 2) (m : Fin 2) :
    (rotatingData co si u v).geo2 a c m = 0 := by
  fin_cases a <;> fin_cases c <;> fin_cases m <;>
    simp [rotatingData, mapperData2D, bezierEval2D, basis2D, e2, rotationCps,
      Finset.sum_range_succ, bernsteinDeriv_zero, bernsteinDeriv_one,
      bernsteinDeriv_two, bernstein] <;> ring

theorem scalJac (u v w : ℚ) :
    (scalingData u v w).jac =
      Matrix.of ![![2, 0, 0], ![0, 3 / 10, 0], ![0, 0, 3 / 2]] := by
  ext i j
  fin_cases i <;> fin_cases j <;>
    simp [scalingData, mapperData3D, bezierEval3D, basis3D, e3, scalingCps,
      Finset.sum_range_succ, bernsteinDeriv_zero, bernsteinDeriv_one,
      bernstein, Matrix.vecHead, Matrix.vecTail, Function.comp] <;> ring

theorem scalPinv (u v w : ℚ) :
    pseudoInverseJacobian (scalingData u v w).jac =
      Matrix.of ![![1 / 2, 0, 0], ![0, 10 / 3, 0], ![0, 0, 2 / 3]] := by
  rw [pseudoInverseJacobian, scalJac]
  ext i j
  fin_cases i <;> fin_cases j <;>
    simp [qInverse, Matrix.mul_apply, Fin.sum_univ_three,
      Matrix.transpose_apply, Matrix.det_fin_three, Matrix.adjugate_fin_three,
      Matrix.smul_apply, Matrix.of_apply, Matrix.cons_val_zero,
      Matrix.cons_val_one, Matrix.head_cons, Matrix.vecHead, Matrix.vecTail] <;>
    norm_num

/-- Claim C3: the mapped gradient of each raw basis function is the
parametric gradient contracted with the pseudo-inverse Jacobian; the
pseudo-inverse is a left inverse whenever the normal matrix is regular and
the exact (two-sided) inverse when the parametric and physical dimensions
coincide and the Jacobian is regular; for the rotation geometry the mapped
gradient is the rotated parametric gradient, and for the axis-scaling box
geometry it is the axis-wise `1/(2, 0.3, 1.5)`-scaled parametric gradient. -/
theorem C3_gradient_pseudoinverse :
    (∀ (para phys : ℕ) (J : Matrix (Fin phys) (Fin para) ℚ),
        (J.transpose * J).det ≠ 0 → pseudoInverseJacobian J * J = 1) ∧
    (∀ (n : ℕ) (J : Matrix (Fin n) (Fin n) ℚ), J.det ≠ 0 →
        pseudoInverseJacobian J * J = 1 ∧ J * pseudoInverseJacobian J = 1) ∧
    (∀ (para phys nsupp : ℕ) (D : MapperData para phys nsupp) (s : Fin nsupp)
        (m : Fin phys),
        basisGradient D s m =
          ∑ a, D.bd1 s a * pseudoInverseJacobian D.jac a m) ∧
    (∀ co si : ℚ, co ^ 2 + si ^ 2 = 1 → ∀ u v : ℚ, ∀ k : Fin 6,
        basisGradient (rotatingData co si u v) k 0 =
          co * basis2D 2 1 1 0 k.val u v - si * basis2D 2 1 0 1 k.val u v ∧
        basisGradient (rotatingData co si u v) k 1 =
          si * basis2D 2 1 1 0 k.val u v + co * basis2D 2 1 0 1 k.val u v) ∧
    (∀ u v w : ℚ, ∀ k : Fin 12,
        basisGradient (scalingData u v w) k 0 =
          basis3D 2 1 1 1 0 0 k.val u v w / 2 ∧
        basisGradient (scalingData u v w) k 1 =
          basis3D 2 1 1 0 1 0 k.val u v w / (3 / 10) ∧
        basisGradient (scalingData u v w) k 2 =
          basis3D 2 1 1 0 0 1 k.val u v w / (3 / 2)) := by
  have hleft : ∀ (para phys : ℕ) (J : Matrix (Fin phys) (Fin para) ℚ),
      (J.transpose * J).det ≠ 0 → pseudoInverseJacobian J * J = 1 := by
    intro para phys J h
    rw [pseudoInverseJacobian, Matrix.mul_assoc]
    exact qInverse_mul _ h
  refine ⟨hleft, ?_, ?_, ?_, ?_⟩
  · intro n J h
    have hJTJ : (J.transpose * J).det ≠ 0 := by
      rw [Matrix.det_mul, Matrix.det_transpose]
      exact mul_ne_zero h h
    have h1 := hleft n n J hJTJ
    exact ⟨h1, Matrix.mul_eq_one_comm.mpr h1⟩
  · intro para phys nsupp D s m
    rfl
  · intro co si h u v k
    constructor <;>
      · show (∑ a, (rotatingData co si u v).bd1 k a *
            pseudoInverseJacobian (rotatingData co si u v).jac a _) = _
        rw [rotPinv co si u v h]
        simp [Fin.sum_univ_two, rotatingData, mapperData2D, e2, rotMat,
          Matrix.transpose_apply, Matrix.of_apply, Matrix.cons_val_zero,
          Matrix.cons_val_one, Matrix.head_cons, Matrix.vecHead,
          Matrix.vecTail]
        ring
  · intro u v w k
    refine ⟨?_, ?_, ?_⟩ <;>
      · show (∑ a, (scalingData u v w).bd1 k a *
            pseudoInverseJacobian (scalingData u v w).jac a _) = _
        rw [scalPinv u v w]
        simp [Fin.sum_univ_three, scalingData, mapperData3D, e3,
          Matrix.of_apply, Matrix.cons_val_zero, Matrix.cons_val_one,
          Matrix.head_cons, Matrix.vecHead, Matrix.vecTail, Function.comp]
        ring

/-- Witness for C3: the identity Jacobian is exactly inverted, and the
rotation conjunct holds at the concrete rotation `(3/5, 4/5)` and query
`(1/3, 1/4)`. -/
theorem C3_gradient_pseudoinverse_witness :
    ((1 : Matrix (Fin 2) (Fin 2) ℚ).det ≠ 0 ∧
      pseudoInverseJacobian (1 : Matrix (Fin 2) (Fin 2) ℚ) * 1 = 1 ∧
      1 * pseudoInverseJacobian (1 : Matrix (Fin 2) (Fin 2) ℚ) = 1) ∧
    ((3 / 5 : ℚ) ^ 2 + (4 / 5 : ℚ) ^ 2 = 1 ∧
      basisGradient (rotatingData (3 / 5) (4 / 5) (1 / 3) (1 / 4)) 0 0 =
        3 / 5 * basis2D 2 1 1 0 (0 : Fin 6).val (1 / 3) (1 / 4) -
          4 / 5 * basis2D 2 1 0 1 (0 : Fin 6).val (1 / 3) (1 / 4)) := by
  have hdet : (1 : Matrix (Fin 2) (Fin 2) ℚ).det ≠ 0 := by
    rw [Matrix.det_one]
    norm_num
  have hrot : (3 / 5 : ℚ) ^ 2 + (4 / 5 : ℚ) ^ 2 = 1 := by norm_num
  refine ⟨⟨hdet, ?_, ?_⟩, hrot, ?_⟩
  · exact (C3_gradient_pseudoinverse.2.1 2 1 hdet).1
  · exact (C3_gradient_pseudoinverse.2.1 2 1 hdet).2
  · exact (C3_gradient_pseudoinverse.2.2.2.1 (3 / 5) (4 / 5) hrot (1 / 3)
      (1 / 4) 0).1

/-! ### Constant-field regression scenario -/

theorem scal_sum_bd1 (u v w : ℚ) (a : Fin 3) :
    (∑ s, (scalingData u v w).bd1 s a) = 0 := by
  fin_cases a <;>
    simp [Fin.sum_univ_succ, scalingData, mapperData3D, basis3D, e3,
      bernsteinDeriv_zero, bernsteinDeriv_one, bernstein] <;> ring

set_option maxHeartbeats 2000000 in
theorem scal_sum_bd2 (u v w : ℚ) (a c : Fin 3) :
    (∑ s, (scalingData u v w).bd2 s a c) = 0 := by
  fin_cases a <;> fin_cases c <;>
    simp [Fin.sum_univ_succ, scalingData, mapperData3D, basis3D, e3,
      bernsteinDeriv_zero, bernsteinDeriv_one, bernsteinDeriv_two,
      bernstein] <;> ring

theorem scal_sum_basisGradient (u v w : ℚ) (m : Fin 3) :
    (∑ s, basisGradient (scalingData u v w) s m) = 0 := by
  show (∑ s, ∑ a, (scalingData u v w).bd1 s a *
      pseudoInverseJacobian (scalingData u v w).jac a m) = 0
  rw [Finset.sum_comm]
  refine Finset.sum_eq_zero fun a _ => ?_
  rw [← Finset.sum_mul, scal_sum_bd1, zero_mul]

theorem scal_sum_corrected (u v w : ℚ) (a c : Fin 3) :
    (∑ s, correctedHessParam (scalingData u v w) s a c) = 0 := by
  show (∑ s, ((scalingData u v w).bd2 s a c -
      ∑ k, (scalingData u v w).bd1 s k *
        gammaCorrection (scalingData u v w) k a c)) = 0
  rw [Finset.sum_sub_distrib, scal_sum_bd2]
  have hcorr : (∑ s, ∑ k, (scalingData u v w).bd1 s k *
      gammaCorrection (scalingData u v w) k a c) = 0 := by
    rw [Finset.sum_comm]
    refine Finset.sum_eq_zero fun k _ => ?_
    rw [← Finset.sum_mul, scal_sum_bd1, zero_mul]
  rw [hcorr, sub_zero]

theorem scal_sum_basisHessian (u v w : ℚ) (m n : Fin 3) :
    (∑ s, basisHessian (scalingData u v w) s m n) = 0 := by
  show (∑ s, ∑ a, ∑ c,
      pseudoInverseJacobian (scalingData u v w).jac a m *
        correctedHessParam (scalingData u v w) s a c *
        pseudoInverseJacobian (scalingData u v w).jac c n) = 0
  rw [Finset.sum_comm]
  refine Finset.sum_eq_zero fun a _ => ?_
  rw [Finset.sum_comm]
  refine Finset.sum_eq_zero fun c _ => ?_
  have h1 : ∀ s : Fin 12,
      pseudoInverseJacobian (scalingData u v w).jac a m *
        correctedHessParam (scalingData u v w) s a c *
        pseudoInverseJacobian (scalingData u v w).jac c n =
      pseudoInverseJacobian (scalingData u v w).jac a m *
        pseudoInverseJacobian (scalingData u v w).jac c n *
        correctedHessParam (scalingData u v w) s a c := fun s => by ring
  rw [Finset.sum_congr rfl fun s _ => h1 s, ← Finset.mul_sum,
    scal_sum_corrected, mul_zero]

theorem scal_sum_basisLaplacian (u v w : ℚ) :
    (∑ s, basisLaplacian (scalingData u v w) s) = 0 := by
  show (∑ s, ∑ a, ∑ c,
      correctedHessParam (scalingData u v w) s a c *
        (∑ m, pseudoInverseJacobian (scalingData u v w).jac a m *
          pseudoInverseJacobian (scalingData u v w).jac c m)) = 0
  rw [Finset.sum_comm]
  refine Finset.sum_eq_zero fun a _ => ?_
  rw [Finset.sum_comm]
  refine Finset.sum_eq_zero fun c _ => ?_
  rw [← Finset.sum_mul, scal_sum_corrected, zero_mul]

/-- Claim C9: for the trilinear `2 x 0.3 x 1.5` box geometry (degrees
`[1,1,1]`, 8 control points) with the constant scalar field of degrees
`[2,1,1]` and all coefficients `0.2`, the mapper's field gradient, Hessian
and Laplacian vanish at every query point. -/
theorem C9_constant_field_zero_derivatives :
    ∀ (u v w : ℚ) (i : Fin 1) (m n : Fin 3),
      fieldGradient (scalingData u v w) monoCoeff i m = 0 ∧
      fieldHessian (scalingData u v w) monoCoeff i m n = 0 ∧
      fieldLaplacian (scalingData u v w) monoCoeff i = 0 := by
  intro u v w i m n
  refine ⟨?_, ?_, ?_⟩
  · show (∑ s, monoCoeff s i * basisGradient (scalingData u v w) s m) = 0
    simp only [monoCoeff]
    rw [← Finset.mul_sum, scal_sum_basisGradient, mul_zero]
  · show (∑ s, monoCoeff s i * basisHessian (scalingData u v w) s m n) = 0
    simp only [monoCoeff]
    rw [← Finset.mul_sum, scal_sum_basisHessian, mul_zero]
  · show (∑ s, monoCoeff s i * basisLaplacian (scalingData u v w) s) = 0
    simp only [monoCoeff]
    rw [← Finset.mul_sum, scal_sum_basisLaplacian, mul_zero]

/-! ### Hessian chain rule with curvature correction -/

theorem rot_hessian_similarity (co si : ℚ) (h : co ^ 2 + si ^ 2 = 1)
    (u v : ℚ) (k : Fin 6) (m n : Fin 2) :
    basisHessian (rotatingData co si u v) k m n =
      ∑ a, ∑ c, rotMat co si m a * (rotatingData co si u v).bd2 k a c *
        rotMat co si n c := by
  show (∑ a, ∑ c,
      pseudoInverseJacobian (rotatingData co si u v).jac a m *
        correctedHessParam (rotatingData co si u v) k a c *
        pseudoInverseJacobian (rotatingData co si u v).jac c n) = _
  rw [rotPinv co si u v h]
  refine Finset.sum_congr rfl fun a _ => Finset.sum_congr rfl fun c _ => ?_
  have hg : ∀ kk, gammaCorrection (rotatingData co si u v) kk a c = 0 := by
    intro kk
    refine Finset.sum_eq_zero fun m2 _ => ?_
    rw [rotGeo2, mul_zero]
  have hcorr : correctedHessParam (rotatingData co si u v) k a c =
      (rotatingData co si u v).bd2 k a c := by
    show (rotatingData co si u v).bd2 k a c -
        (∑ kk, (rotatingData co si u v).bd1 k kk *
          gammaCorrection (rotatingData co si u v) kk a c) =
      (rotatingData co si u v).bd2 k a c
    rw [Finset.sum_eq_zero fun kk _ => by rw [hg kk, mul_zero], sub_zero]
  rw [hcorr, Matrix.transpose_apply, Matrix.transpose_apply]

theorem idJac (fp : ℕ) (u : ℚ) : (mapperData1D 1 idCps fp u).jac = 1 := by
  ext i j
  fin_cases i <;> fin_cases j <;>
    simp [mapperData1D, bezierEval1D, idCps, Finset.sum_range_succ,
      bernsteinDeriv_one, bernsteinDeriv_zero, bernstein, Matrix.one_apply]

theorem idPinv (fp : ℕ) (u : ℚ) :
    pseudoInverseJacobian (mapperData1D 1 idCps fp u).jac = 1 := by
  rw [pseudoInverseJacobian, idJac, Matrix.transpose_one, one_mul]
  rw [show qInverse (1 : Matrix (Fin 1) (Fin 1) ℚ) = 1 by
    simp [qInverse, Matrix.adjugate_one]]
  rw [one_mul]

theorem idGeo2 (fp : ℕ) (u : ℚ) (a c m : Fin 1) :
    (mapperData1D 1 idCps fp u).geo2 a c m = 0 := by
  show bezierEval1D 1 idCps 2 u m = 0
  simp [bezierEval1D, idCps, Finset.sum_range_succ, bernsteinDeriv_two,
    bernsteinDeriv_one, bernsteinDeriv_zero, bernstein]

theorem idHessian (fp : ℕ) (u : ℚ) (s : Fin (fp + 1)) :
    basisHessian (mapperData1D 1 idCps fp u) s 0 0 =
      bernsteinDeriv 2 fp s.val u := by
  show (∑ a, ∑ c,
      pseudoInverseJacobian (mapperData1D 1 idCps fp u).jac a 0 *
        correctedHessParam (mapperData1D 1 idCps fp u) s a c *
        pseudoInverseJacobian (mapperData1D 1 idCps fp u).jac c 0) = _
  rw [idPinv]
  rw [Fin.sum_univ_one, Fin.sum_univ_one]
  have hg : ∀ kk, gammaCorrection (mapperData1D 1 idCps fp u) kk 0 0 = 0 := by
    intro kk
    refine Finset.sum_eq_zero fun m2 _ => ?_
    rw [idGeo2, mul_zero]
  have hcorr : correctedHessParam (mapperData1D 1 idCps fp u) s 0 0 =
      bernsteinDeriv 2 fp s.val u := by
    show (mapperData1D 1 idCps fp u).bd2 s 0 0 -
        (∑ kk, (mapperData1D 1 idCps fp u).bd1 s kk *
          gammaCorrection (mapperData1D 1 idCps fp u) kk 0 0) = _
    rw [Finset.sum_eq_zero fun kk _ => by rw [hg kk, mul_zero], sub_zero]
    rfl
  rw [hcorr, Matrix.one_apply_eq, one_mul, mul_one]

theorem rot_bd2 (co si u v : ℚ) (k : Fin 6) (a c : Fin 2) :
    (rotatingData co si u v).bd2 k a c =
      basis2D 2 1 (e2 a 0 + e2 c 0) (e2 a 1 + e2 c 1) k.val u v := rfl

theorem bval0 (u v : ℚ) : basis2D 2 1 0 0 0 u v = (1 - u) ^ 2 * (1 - v) := by
  norm_num [basis2D, bernsteinDeriv_zero, bernstein]

theorem bval1 (u v : ℚ) :
    basis2D 2 1 0 0 1 u v = 2 * u * (1 - u) * (1 - v) := by
  norm_num [basis2D, bernsteinDeriv_zero, bernstein]
  all_goals ring

theorem bval2 (u v : ℚ) : basis2D 2 1 0 0 2 u v = u ^ 2 * (1 - v) := by
  norm_num [basis2D, bernsteinDeriv_zero, bernstein]

theorem bval3 (u v : ℚ) : basis2D 2 1 0 0 3 u v = (1 - u) ^ 2 * v := by
  norm_num [basis2D, bernsteinDeriv_zero, bernstein]

theorem bval4 (u v : ℚ) : basis2D 2 1 0 0 4 u v = 2 * u * (1 - u) * v := by
  norm_num [basis2D, bernsteinDeriv_zero, bernstein]
  all_goals ring

theorem bval5 (u v : ℚ) : basis2D 2 1 0 0 5 u v = u ^ 2 * v := by
  norm_num [basis2D, bernsteinDeriv_zero, bernstein]

theorem bd20_0 (u v : ℚ) : basis2D 2 1 2 0 0 u v = 2 * (1 - v) := by
  norm_num [basis2D, bernsteinDeriv_zero, bernsteinDeriv_one,
    bernsteinDeriv_two, bernstein]
  all_goals ring

theorem bd20_1 (u v : ℚ) : basis2D 2 1 2 0 1 u v = -(4 * (1 - v)) := by
  norm_num [basis2D, bernsteinDeriv_zero, bernsteinDeriv_one,
    bernsteinDeriv_two, bernstein]
  all_goals ring

theorem bd20_2 (u v : ℚ) : basis2D 2 1 2 0 2 u v = 2 * (1 - v) := by
  norm_num [basis2D, bernsteinDeriv_zero, bernsteinDeriv_one,
    bernsteinDeriv_two, bernstein]
  all_goals ring

theorem bd20_3 (u v : ℚ) : basis2D 2 1 2 0 3 u v = 2 * v := by
  norm_num [basis2D, bernsteinDeriv_zero, bernsteinDeriv_one,
    bernsteinDeriv_two, bernstein]
  all_goals ring

theorem bd20_4 (u v : ℚ) : basis2D 2 1 2 0 4 u v = -(4 * v) := by
  norm_num [basis2D, bernsteinDeriv_zero, bernsteinDeriv_one,
    bernsteinDeriv_two, bernstein]
  all_goals ring

theorem bd20_5 (u v : ℚ) : basis2D 2 1 2 0 5 u v = 2 * v := by
  norm_num [basis2D, bernsteinDeriv_zero, bernsteinDeriv_one,
    bernsteinDeriv_two, bernstein]
  all_goals ring

theorem bd11_0 (u v : ℚ) : basis2D 2 1 1 1 0 u v = 2 * (1 - u) := by
  norm_num [basis2D, bernsteinDeriv_zero, bernsteinDeriv_one, bernstein]
  all_goals ring

theorem bd11_1 (u v : ℚ) : basis2D 2 1 1 1 1 u v = 4 * u - 2 := by
  norm_num [basis2D, bernsteinDeriv_zero, bernsteinDeriv_one, bernstein]
  all_goals ring

theorem bd11_2 (u v : ℚ) : basis2D 2 1 1 1 2 u v = -(2 * u) := by
  norm_num [basis2D, bernsteinDeriv_zero, bernsteinDeriv_one, bernstein]
  all_goals ring

theorem bd11_3 (u v : ℚ) : basis2D 2 1 1 1 3 u v = -(2 * (1 - u)) := by
  norm_num [basis2D, bernsteinDeriv_zero, bernsteinDeriv_one, bernstein]
  all_goals ring

theorem bd11_4 (u v : ℚ) : basis2D 2 1 1 1 4 u v = 2 - 4 * u := by
  norm_num [basis2D, bernsteinDeriv_zero, bernsteinDeriv_one, bernstein]
  all_goals ring

theorem bd11_5 (u v : ℚ) : basis2D 2 1 1 1 5 u v = 2 * u := by
  norm_num [basis2D, bernsteinDeriv_zero, bernsteinDeriv_one, bernstein]
  all_goals ring

theorem bd02_any (s : ℕ) (u v : ℚ) : basis2D 2 1 0 2 s u v = 0 := by
  have h0 : ∀ i, bernsteinDeriv 1 0 i v = 0 := fun i => by
    rw [bernsteinDeriv_one]
    norm_num
  have h1 : bernsteinDeriv 2 1 (s / 3) v = 0 := by
    rw [bernsteinDeriv_two]
    simp [h0]
  rw [basis2D, h1, mul_zero]

set_option maxHeartbeats 4000000 in
theorem rot_fd_h00 (u v dx : ℚ) (hdx : dx ≠ 0) (k : Fin 6) :
    fdHessian00 (basisPhys (3 / 5) (4 / 5) k.val)
        (3 / 5 * u - 4 / 5 * v) (4 / 5 * u + 3 / 5 * v) dx =
      basisHessian (rotatingData (3 / 5) (4 / 5) u v) k 0 0 := by
  rw [rot_hessian_similarity (3 / 5) (4 / 5) (by norm_num) u v k]
  fin_cases k <;>
  · simp only [fdHessian00, basisPhys, Fin.sum_univ_two, rot_bd2]
    norm_num [rotMat, Matrix.of_apply, Matrix.cons_val_zero,
      Matrix.cons_val_one, Matrix.head_cons, e2,
      bval0, bval1, bval2, bval3, bval4, bval5,
      bd20_0, bd20_1, bd20_2, bd20_3, bd20_4, bd20_5,
      bd11_0, bd11_1, bd11_2, bd11_3, bd11_4, bd11_5, bd02_any]
    all_goals try field_simp
    all_goals ring

set_option maxHeartbeats 4000000 in
theorem rot_fd_h01 (u v dx : ℚ) (hdx : dx ≠ 0) (k : Fin 6) :
    fdHessian01 (basisPhys (3 / 5) (4 / 5) k.val)
        (3 / 5 * u - 4 / 5 * v) (4 / 5 * u + 3 / 5 * v) dx =
      basisHessian (rotatingData (3 / 5) (4 / 5) u v) k 0 1 := by
  rw [rot_hessian_similarity (3 / 5) (4 / 5) (by norm_num) u v k]
  fin_cases k <;>
  · simp only [fdHessian01, basisPhys, Fin.sum_univ_two, rot_bd2]
    norm_num [rotMat, Matrix.of_apply, Matrix.cons_val_zero,
      Matrix.cons_val_one, Matrix.head_cons, e2,
      bval0, bval1, bval2, bval3, bval4, bval5,
      bd20_0, bd20_1, bd20_2, bd20_3, bd20_4, bd20_5,
      bd11_0, bd11_1, bd11_2, bd11_3, bd11_4, bd11_5, bd02_any]
    all_goals try field_simp
    all_goals ring

set_option maxHeartbeats 4000000 in
theorem rot_fd_h11 (u v dx : ℚ) (hdx : dx ≠ 0) (k : Fin 6) :
    fdHessian11 (basisPhys (3 / 5) (4 / 5) k.val)
        (3 / 5 * u - 4 / 5 * v) (4 / 5 * u + 3 / 5 * v) dx =
      basisHessian (rotatingData (3 / 5) (4 / 5) u v) k 1 1 := by
  rw [rot_hessian_similarity (3 / 5) (4 / 5) (by norm_num) u v k]
  fin_cases k <;>
  · simp only [fdHessian11, basisPhys, Fin.sum_univ_two, rot_bd2]
    norm_num [rotMat, Matrix.of_apply, Matrix.cons_val_zero,
      Matrix.cons_val_one, Matrix.head_cons, e2,
      bval0, bval1, bval2, bval3, bval4, bval5,
      bd20_0, bd20_1, bd20_2, bd20_3, bd20_4, bd20_5,
      bd11_0, bd11_1, bd11_2, bd11_3, bd11_4, bd11_5, bd02_any]
    all_goals try field_simp
    all_goals ring

/-- Claim C4 (amended): the mapper's physical Hessian of each raw basis
function equals the second-order chain-rule formula with curvature
correction; for a rotation geometry it reduces to the pure similarity
transform `R · H_param · Rᵀ`; and the test's central-difference stencils of
step `dx` reproduce it exactly (hence within any tolerance) for the affine
rotation geometry with the degree-`[2, 1]` basis.  (The original blanket
1e-4 tolerance claim for arbitrary bases fails, see
`C4_hessian_fd_counterexample`.) -/
theorem C4_hessian_formula_amended :
    (∀ (para phys nsupp : ℕ) (D : MapperData para phys nsupp) (s : Fin nsupp)
        (m n : Fin phys),
        basisHessian D s m n =
          ∑ a, ∑ c,
            pseudoInverseJacobian D.jac a m *
              (D.bd2 s a c - ∑ k, D.bd1 s k *
                ∑ j, pseudoInverseJacobian D.jac k j * D.geo2 a c j) *
              pseudoInverseJacobian D.jac c n) ∧
    (∀ co si : ℚ, co ^ 2 + si ^ 2 = 1 → ∀ u v : ℚ, ∀ k : Fin 6, ∀ m n : Fin 2,
        basisHessian (rotatingData co si u v) k m n =
          ∑ a, ∑ c, rotMat co si m a * (rotatingData co si u v).bd2 k a c *
            rotMat co si n c) ∧
    (∀ u v dx : ℚ, dx ≠ 0 → ∀ k : Fin 6,
        fdHessian00 (basisPhys (3 / 5) (4 / 5) k.val)
            (3 / 5 * u - 4 / 5 * v) (4 / 5 * u + 3 / 5 * v) dx =
          basisHessian (rotatingData (3 / 5) (4 / 5) u v) k 0 0 ∧
        fdHessian01 (basisPhys (3 / 5) (4 / 5) k.val)
            (3 / 5 * u - 4 / 5 * v) (4 / 5 * u + 3 / 5 * v) dx =
          basisHessian (rotatingData (3 / 5) (4 / 5) u v) k 0 1 ∧
        fdHessian11 (basisPhys (3 / 5) (4 / 5) k.val)
            (3 / 5 * u - 4 / 5 * v) (4 / 5 * u + 3 / 5 * v) dx =
          basisHessian (rotatingData (3 / 5) (4 / 5) u v) k 1 1) := by
  exact ⟨fun para phys nsupp D s m n => rfl, rot_hessian_similarity,
    fun u v dx hdx k =>
      ⟨rot_fd_h00 u v dx hdx k, rot_fd_h01 u v dx hdx k,
        rot_fd_h11 u v dx hdx k⟩⟩

/-- Witness for C4 at the concrete rotation `(3/5, 4/5)`, query
`(1/3, 1/4)` and step `1/10000`. -/
theorem C4_hessian_formula_witness :
    ((3 / 5 : ℚ) ^ 2 + (4 / 5 : ℚ) ^ 2 = 1 ∧
      basisHessian (rotatingData (3 / 5) (4 / 5) (1 / 3) (1 / 4)) 0 0 1 =
        ∑ a, ∑ c, rotMat (3 / 5) (4 / 5) 0 a *
          (rotatingData (3 / 5) (4 / 5) (1 / 3) (1 / 4)).bd2 0 a c *
          rotMat (3 / 5) (4 / 5) 1 c) ∧
    ((1 / 10000 : ℚ) ≠ 0 ∧
      fdHessian00 (basisPhys (3 / 5) (4 / 5) (0 : Fin 6).val)
          (3 / 5 * (1 / 3) - 4 / 5 * (1 / 4))
          (4 / 5 * (1 / 3) + 3 / 5 * (1 / 4)) (1 / 10000) =
        basisHessian (rotatingData (3 / 5) (4 / 5) (1 / 3) (1 / 4)) 0 0 0) := by
  have hrot : (3 / 5 : ℚ) ^ 2 + (4 / 5 : ℚ) ^ 2 = 1 := by norm_num
  have hdx : (1 / 10000 : ℚ) ≠ 0 := by norm_num
  exact ⟨⟨hrot, C4_hessian_formula_amended.2.1 (3 / 5) (4 / 5) hrot (1 / 3)
      (1 / 4) 0 0 1⟩,
    ⟨hdx, (C4_hessian_formula_amended.2.2 (1 / 3) (1 / 4) (1 / 10000) hdx
      0).1⟩⟩

/-- Counterexample to the original C4 tolerance claim: for the identity
geometry and the degree-20 Bezier basis, the central-difference stencil of
step `1e-4` misses the mapper's Hessian of basis function 0 at `u = 1/200`
by more than `1e-4` (the fourth derivative of the basis is too large). -/
theorem C4_hessian_fd_counterexample :
    ¬ (|fdHessian1D (fun x => bernstein 20 0 x) (1 / 200) (1 / 10000) -
        basisHessian (mapperData1D 1 idCps 20 (1 / 200)) 0 0 0| ≤
      1 / 10000) := by
  rw [idHessian]
  rw [show ((0 : Fin 21).val) = 0 from rfl]
  rw [show bernsteinDeriv 2 20 0 (1 / 200) =
      380 * (1 - 1 / 200 : ℚ) ^ 18 by
    norm_num [bernsteinDeriv_two, bernsteinDeriv_one, bernstein]]
  rw [show fdHessian1D (fun x => bernstein 20 0 x) (1 / 200) (1 / 10000) =
      ((1 - (1 / 200 + 2 / 10000) : ℚ) ^ 20 +
        (1 - (1 / 200 - 2 / 10000)) ^ 20 - 2 * (1 - 1 / 200) ^ 20) /
        (4 * (1 / 10000) * (1 / 10000)) by
    norm_num [fdHessian1D, bernstein]]
  rw [abs_le]
  push_neg
  intro h1
  norm_num

/-! ### Proximity round trip -/

theorem sqDist_nonneg {d : ℕ} (x y : Fin d → ℚ) : 0 ≤ sqDist x y :=
  Finset.sum_nonneg fun _ _ => sq_nonneg _

theorem sqDist_self {d : ℕ} (x : Fin d → ℚ) : sqDist x x = 0 := by
  simp [sqDist]

theorem eq_of_sqDist_eq_zero {d : ℕ} {x y : Fin d → ℚ}
    (h : sqDist x y = 0) : x = y := by
  funext i
  have h2 := (Finset.sum_eq_zero_iff_of_nonneg
    (fun j _ => sq_nonneg (x j - y j))).mp h i (Finset.mem_univ i)
  have h3 : x i - y i = 0 := (pow_eq_zero_iff two_ne_zero).mp h2
  linarith

/-- Claim C1 (amended): whenever the geometry map is injective on the
parametric domain, any proximity result (a domain point whose image
minimises the distance to the physical query) for a query that is the exact
image of an interior parametric point `u` equals `u` exactly (hence within
tolerance 1e-8).  Without injectivity the round trip can fail, see
`C1_proximity_roundtrip_counterexample`. -/
theorem C1_proximity_roundtrip_amended :
    ∀ (p d : ℕ) (E : (Fin p → ℚ) → Fin d → ℚ) (u uu : Fin p → ℚ),
      (∀ a b, inDomain a → inDomain b → E a = E b → a = b) →
      inDomain u → IsProximityResult E (E u) uu → uu = u := by
  intro p d E u uu hinj hu hprox
  obtain ⟨huu, hmin⟩ := hprox
  have h0 : sqDist (E uu) (E u) ≤ 0 := by
    have := hmin u hu
    rwa [sqDist_self] at this
  exact hinj uu u huu hu
    (eq_of_sqDist_eq_zero (le_antisymm h0 (sqDist_nonneg _ _)))

/-- Counterexample to C1 as stated: for the degenerate (constant) Bezier
geometry, the interior parametric point `1/2` maps to the physical origin,
yet the parametric origin is an equally valid proximity result and differs
from `1/2` by far more than 1e-8. -/
theorem C1_proximity_roundtrip_counterexample :
    IsProximityResult (fun q : Fin 1 → ℚ => bezierEval1D 1 zeroCps 0 (q 0))
      ((fun q : Fin 1 → ℚ => bezierEval1D 1 zeroCps 0 (q 0))
        (fun _ => 1 / 2))
      (fun _ => 0) ∧
    (0 : ℚ) < 1 / 2 ∧ (1 / 2 : ℚ) < 1 ∧
    ¬ (|(0 : ℚ) - 1 / 2| ≤ 1 / 10 ^ 8) := by
  have hE : ∀ t : ℚ, bezierEval1D 1 zeroCps 0 t = fun _ => (0 : ℚ) :=
    fun t => funext fun c => by simp [bezierEval1D, zeroCps]
  refine ⟨⟨fun dd => by norm_num, fun w _ => ?_⟩, by norm_num, by norm_num,
    ?_⟩
  · simp only [hE]
    exact le_refl _
  · intro hcon
    rw [abs_le] at hcon
    have h1 := hcon.1
    norm_num at h1

/-- Witness for the amended C1 at the identity Bezier curve `S(t) = t` with
`u = 1/2` and the (syntactically different) proximity result `2/4`. -/
theorem C1_proximity_roundtrip_witness :
    inDomain (fun _ : Fin 1 => (1 / 2 : ℚ)) ∧
    IsProximityResult (fun q : Fin 1 → ℚ => bezierEval1D 1 idCps 0 (q 0))
      ((fun q : Fin 1 → ℚ => bezierEval1D 1 idCps 0 (q 0)) (fun _ => 1 / 2))
      (fun _ => 2 / 4) ∧
    (fun _ : Fin 1 => (2 / 4 : ℚ)) = fun _ => (1 / 2 : ℚ) := by
  have hE : ∀ t : ℚ, bezierEval1D 1 idCps 0 t = fun _ => t :=
    fun t => funext fun c => by
      norm_num [bezierEval1D, idCps, Finset.sum_range_succ,
        bernsteinDeriv_zero, bernstein]
  have hinj : ∀ a b : Fin 1 → ℚ, inDomain a → inDomain b →
      (fun q : Fin 1 → ℚ => bezierEval1D 1 idCps 0 (q 0)) a =
        (fun q : Fin 1 → ℚ => bezierEval1D 1 idCps 0 (q 0)) b → a = b := by
    intro a b _ _ hab
    funext dd
    have hd0 : dd = 0 := Subsingleton.elim dd 0
    have h1 : a 0 = b 0 := by
      have h2 := congrFun hab 0
      simp only [hE] at h2
      exact h2
    rw [hd0, h1]
  have hdom : inDomain (fun _ : Fin 1 => (1 / 2 : ℚ)) :=
    fun dd => by norm_num
  have hdom2 : inDomain (fun _ : Fin 1 => (2 / 4 : ℚ)) :=
    fun dd => by norm_num
  have hprox : IsProximityResult
      (fun q : Fin 1 → ℚ => bezierEval1D 1 idCps 0 (q 0))
      ((fun q : Fin 1 → ℚ => bezierEval1D 1 idCps 0 (q 0)) (fun _ => 1 / 2))
      (fun _ => 2 / 4) := by
    refine ⟨hdom2, fun w _ => ?_⟩
    simp only [hE]
    have hz : sqDist (fun _ : Fin 1 => (2 / 4 : ℚ)) (fun _ => 1 / 2) = 0 := by
      norm_num [sqDist]
    rw [hz]
    exact sqDist_nonneg _ _
  exact ⟨hdom, hprox,
    C1_proximity_roundtrip_amended 1 1
      (fun q : Fin 1 → ℚ => bezierEval1D 1 idCps 0 (q 0))
      (fun _ => 1 / 2) (fun _ => 2 / 4) hinj hdom hprox⟩

end Splinepy
